import Mathlib

/-!
Verification development for the SafeRemediate remediation core:
the Confidence-Safety Decision Engine (`remediation_decision_engine.py`)
and the Remediation Workflow Orchestrator (`workflow_orchestrator.py`).

Modelling conventions:
* Python floats are modelled as rationals (`ℚ`); Python ints as `ℤ`.
* The transcendental library calls `math.exp`, `math.log10` and the float
  power operator `**` have no computable exact counterpart over `ℚ`; they are
  abstracted as an oracle parameter (`MathOracle`).  Every theorem below is
  proved for an arbitrary oracle, so it holds in particular for the real
  `exp` / `log10` / `pow` (all engine outputs that the claims constrain are
  clamped after the oracle calls, so no analytic property of the oracle is
  needed).
* `RemediationDecisionEngine.evaluate` is modelled as returning the
  `RemediationDecision` record itself; the Python `to_dict()` wrapper that
  rounds the numeric fields to three decimals for JSON display is a
  serialization concern and is not modelled.
* Timestamps (`datetime.utcnow().isoformat()`) and generated UUIDs are passed
  to each operation as explicit string parameters.
* Collaborator callbacks (`on_execute`, `on_rollback`, `on_health_check`) are
  modelled as optional pure functions returning `Except String _`; an
  `Except.error` models the callback raising an exception.
* Python `dict`s that the engine fills in insertion order (the score
  breakdown) are modelled as association lists.
-/

namespace SafeRemediate

/-- Oracle bundling the CPython numeric library calls used by the scoring
functions: `expQ` models `math.exp`, `log10Q` models `math.log10`, and
`powQ x w` models the float power `x ** w`. -/
structure MathOracle where
  expQ : ℚ → ℚ
  log10Q : ℚ → ℚ
  powQ : ℚ → ℚ → ℚ

/-- `clamp01` from remediation_decision_engine.py: `max(0.0, min(1.0, x))`. -/
def clamp01 (x : ℚ) : ℚ := max 0 (min 1 x)

/-- `safe_div(a, b, default)`: `a / b if b != 0 else default`. -/
def safe_div (a b default : ℚ) : ℚ := if b ≠ 0 then a / b else default

/-- `SCORE_WEIGHTS["simulation"]` = 0.30 -/
def wSimulation : ℚ := 30 / 100
/-- `SCORE_WEIGHTS["usage"]` = 0.25 -/
def wUsage : ℚ := 25 / 100
/-- `SCORE_WEIGHTS["data"]` = 0.20 -/
def wData : ℚ := 20 / 100
/-- `SCORE_WEIGHTS["dependency"]` = 0.15 -/
def wDependency : ℚ := 15 / 100
/-- `SCORE_WEIGHTS["historical"]` = 0.10 -/
def wHistorical : ℚ := 10 / 100

/-- `THRESHOLD_AUTO` = 0.90 -/
def THRESHOLD_AUTO : ℚ := 90 / 100
/-- `THRESHOLD_CANARY` = 0.75 -/
def THRESHOLD_CANARY : ℚ := 75 / 100
/-- `THRESHOLD_APPROVAL` = 0.60 -/
def THRESHOLD_APPROVAL : ℚ := 60 / 100

/-- Enum `RemediationAction`. -/
inductive RemediationAction where
  | AUTO_REMEDIATE
  | CANARY
  | REQUIRE_APPROVAL
  | BLOCK
deriving DecidableEq

/-- The `.value` of the str-enum `RemediationAction`. -/
def RemediationAction.value : RemediationAction → String
  | .AUTO_REMEDIATE => "AUTO_REMEDIATE"
  | .CANARY => "CANARY"
  | .REQUIRE_APPROVAL => "REQUIRE_APPROVAL"
  | .BLOCK => "BLOCK"

/-- Dataclass `SimulationResult`.  `status` is kept as the raw string
("SAFE" / "CAUTION" / "RISKY", anything else handled by the default branch of
`status_scores.get`), exactly as in the source. -/
structure SimulationResult where
  status : String
  reachability_preserved : ℚ
  critical_path_affected : Bool
  worst_path_severity : ℚ
  permissions_tested : ℤ
  permissions_safe : ℤ
  services_tested : List String
  warnings : List String
deriving DecidableEq

/-- Dataclass `UsageMetrics`. -/
structure UsageMetrics where
  days_since_last_use : ℤ
  usage_count_90d : ℤ
  observation_days : ℤ
  sources_available : ℤ
  last_used_by : Option String
  usage_pattern : String
deriving DecidableEq

/-- One element of `DependencyContext.impacted_services`
(`{"name": str, "criticality": int}`). -/
structure ImpactedService where
  name : String
  criticality : ℤ
deriving DecidableEq

/-- Dataclass `DependencyContext`. -/
structure DependencyContext where
  total_resources : ℤ
  resources_with_telemetry : ℤ
  edges_observed : ℤ
  edges_estimated : ℤ
  impacted_services : List ImpactedService
  cross_account_dependencies : ℤ
  circular_dependencies : Bool
deriving DecidableEq

/-- Dataclass `HistoricalContext`. -/
structure HistoricalContext where
  total : ℤ
  successes : ℤ
  rollbacks : ℤ
  similar_resource_type_success_rate : ℚ
  last_failure_days_ago : Option ℤ
deriving DecidableEq

/-- Dataclass `EnvironmentContext`. -/
structure EnvironmentContext where
  tier : ℤ
  region : String
  account_id : String
  is_multi_region : Bool
  compliance_frameworks : List String
deriving DecidableEq

/-- Dataclass `PolicyContext`. -/
structure PolicyContext where
  shared_resource : Bool
  revenue_generating : Bool
  has_rollback : Bool
  change_window_open : Bool
  tier : ℤ
  requires_approval_above_tier : ℤ
  max_auto_remediate_severity : String
deriving DecidableEq

/-- Dataclass `RemediationDecision` (the engine output record; `breakdown`
is the insertion-ordered score dict, modelled as an association list). -/
structure RemediationDecision where
  confidence : ℚ
  safety : ℚ
  action : String
  auto_allowed : Bool
  reasons : List String
  breakdown : List (String × ℚ)
  warnings : List String
deriving DecidableEq

/-- `status_scores.get(sim.status, 0.50)` inside `_simulation_score`. -/
def statusScore (status : String) : ℚ :=
  if status = "SAFE" then 95 / 100
  else if status = "CAUTION" then 75 / 100
  else if status = "RISKY" then 40 / 100
  else 50 / 100

/-- `RemediationDecisionEngine._simulation_score`. -/
def simulationScore (sim : SimulationResult) : ℚ :=
  let base := statusScore sim.status
  let reach := clamp01 sim.reachability_preserved
  let perm_coverage := safe_div (sim.permissions_safe : ℚ) (sim.permissions_tested : ℚ) 1
  clamp01 (base * (1 / 2 + 3 / 10 * reach + 1 / 5 * perm_coverage))

/-- `RemediationDecisionEngine._usage_score`. -/
def usageScore (O : MathOracle) (usage : UsageMetrics) : ℚ :=
  let recency_risk := O.expQ (-(usage.days_since_last_use : ℚ) / 30)
  let freq_risk := min 1 (O.log10Q ((usage.usage_count_90d : ℚ) + 1) / (5 / 2))
  if usage.usage_pattern = "NONE" then 95 / 100
  else if usage.usage_pattern = "LOW" then 85 / 100
  else clamp01 (1 - max recency_risk freq_risk)

/-- `RemediationDecisionEngine._data_score`. -/
def dataScore (O : MathOracle) (usage : UsageMetrics) (graph : DependencyContext) : ℚ :=
  let time_coverage := 1 - O.expQ (-(usage.observation_days : ℚ) / 40)
  let source_coverage := min 1 ((usage.sources_available : ℚ) / 4)
  let telemetry_coverage :=
    safe_div (graph.resources_with_telemetry : ℚ) (graph.total_resources : ℚ) (1 / 2)
  clamp01 (time_coverage * (4 / 10) + source_coverage * (3 / 10) + telemetry_coverage * (3 / 10))

/-- `RemediationDecisionEngine._dependency_score`. -/
def dependencyScore (graph : DependencyContext) : ℚ :=
  let graph_cov := safe_div (graph.resources_with_telemetry : ℚ) (graph.total_resources : ℚ) (1 / 2)
  let edge_cov := safe_div (graph.edges_observed : ℚ) (graph.edges_estimated : ℚ) (1 / 2)
  let impact := (graph.impacted_services.map (fun s => min 1 ((s.criticality : ℚ) / 10))).sum
  let size_penalty := 1 / (1 + impact)
  let cross_account_penalty := 1 / (1 + (graph.cross_account_dependencies : ℚ) * (2 / 10))
  clamp01 (graph_cov * edge_cov * size_penalty * cross_account_penalty)

/-- `RemediationDecisionEngine._historical_score`. -/
def historicalScore (history : HistoricalContext) : ℚ :=
  if history.total = 0 then 70 / 100
  else
    let success_rate := safe_div (history.successes : ℚ) (history.total : ℚ) (1 / 2)
    let weight := min 1 ((history.total : ℚ) / 10)
    let base_score := 70 / 100 + (success_rate - 1 / 2) * (4 / 10) * weight
    let b1 := if history.similar_resource_type_success_rate > 9 / 10
      then base_score * (105 / 100) else base_score
    let b2 := match history.last_failure_days_ago with
      | some d => if d < 7 then b1 * (85 / 100) else b1
      | none => b1
    clamp01 b2

/-- `RemediationDecisionEngine._apply_safety_rules` (the source order of the
adjustment steps: production/shared cap, revenue cap, rollback
bonus/penalty, change window, compliance, worst-path severity,
multi-region, final clamp). -/
def applySafetyRules (safety : ℚ) (sim : SimulationResult)
    (env : EnvironmentContext) (policy : PolicyContext) : ℚ :=
  let s := safety
  let s := if env.tier = 0 ∨ policy.shared_resource = true then min s (70 / 100) else s
  let s := if policy.revenue_generating = true then min s (75 / 100) else s
  let s := if policy.has_rollback = true then
      (if s < 75 / 100 then min (s * (115 / 100)) (89 / 100) else s)
    else s * (85 / 100)
  let s := if ¬ policy.change_window_open = true then s * (70 / 100) else s
  let s := if 2 ≤ env.compliance_frameworks.length then s * (95 / 100) else s
  let s := s * (1 - sim.worst_path_severity * (3 / 10))
  let s := if env.is_multi_region = true then s * (90 / 100) else s
  clamp01 s

/-- The seven safety-adjustment steps in the SPEC's stated order
(spec.md §4.1: cap, cap, rollback, change window, worst-path severity,
compliance, multi-region, final clamp).  This definition follows the spec's
words; it differs from `applySafetyRules` only in the relative order of the
severity and compliance steps. -/
def specSafetyAdjust (confidence : ℚ) (sim : SimulationResult)
    (env : EnvironmentContext) (policy : PolicyContext) : ℚ :=
  let s := confidence
  let s := if env.tier = 0 ∨ policy.shared_resource = true then min s (70 / 100) else s
  let s := if policy.revenue_generating = true then min s (75 / 100) else s
  let s := if policy.has_rollback = true then
      (if s < 75 / 100 then min (s * (115 / 100)) (89 / 100) else s)
    else s * (85 / 100)
  let s := if ¬ policy.change_window_open = true then s * (70 / 100) else s
  let s := s * (1 - sim.worst_path_severity * (3 / 10))
  let s := if 2 ≤ env.compliance_frameworks.length then s * (95 / 100) else s
  let s := if env.is_multi_region = true then s * (90 / 100) else s
  clamp01 s

/-- `RemediationDecisionEngine._auto_allowed` (the `env` argument is unused in
the source body). -/
def autoAllowed (policy : PolicyContext) (_env : Option EnvironmentContext) : Bool :=
  if policy.tier ≤ 1 ∨ policy.shared_resource = true then false else true

/-- `RemediationDecisionEngine._decide_action`. -/
def decideAction (safety : ℚ) (policy : PolicyContext) : RemediationAction :=
  if THRESHOLD_AUTO ≤ safety ∧ autoAllowed policy none = true then .AUTO_REMEDIATE
  else if THRESHOLD_CANARY ≤ safety then .CANARY
  else if THRESHOLD_APPROVAL ≤ safety then .REQUIRE_APPROVAL
  else .BLOCK

/-- `RemediationDecisionEngine._block`. -/
def blockDecision (reason : String) : RemediationDecision :=
  { confidence := 0
    safety := 0
    action := "BLOCK"
    auto_allowed := false
    reasons := [reason]
    breakdown := []
    warnings := [reason] }

/-- `RemediationDecisionEngine._explain` (its unused `scores` parameter is
dropped).  Python's numeric f-string formatting (`:.0f`, `:.1f`) is rendered
here via the `ℚ` `toString`; no claim depends on the exact digits of these
strings. -/
def explainModel (sim : SimulationResult) (usage : UsageMetrics)
    (graph : DependencyContext) (history : HistoricalContext)
    (safety : ℚ) (action : String) (policy : PolicyContext) : List String :=
  let r1 := if sim.status = "SAFE" then
      "Simulation SAFE (reachability preserved " ++ toString (sim.reachability_preserved * 100) ++ "%)"
    else if sim.status = "CAUTION" then
      "Simulation requires CAUTION (" ++ toString sim.warnings.length ++ " warnings)"
    else "Simulation flagged as RISKY"
  let r2 := if usage.usage_pattern = "NONE" then
      "No usage detected in " ++ toString usage.observation_days ++ " days"
    else if 90 < usage.days_since_last_use then
      "Last used " ++ toString usage.days_since_last_use ++ " days ago (inactive)"
    else "Usage observed: " ++ toString usage.usage_count_90d ++ " times in 90 days"
  let impacted_count := graph.impacted_services.length
  let r3 := if impacted_count = 0 then "No critical paths affected"
    else toString impacted_count ++ " service(s) may be impacted"
  let r4 := if 0 < history.total then
      "Historical success rate: "
        ++ toString (safe_div (history.successes : ℚ) (history.total : ℚ) 0 * 100)
        ++ "% (" ++ toString history.total ++ " similar)"
    else "No historical data for similar remediations"
  let pr1 := if policy.shared_resource then ["Shared resource policy applied (capped at 70%)"] else []
  let pr2 := if ¬ policy.change_window_open then ["Outside change window (reduced confidence)"] else []
  let pr3 := if policy.has_rollback then ["Rollback available (confidence boosted)"] else []
  let rFinal := "Final safety: " ++ toString (safety * 100) ++ "% → " ++ action
  [r1, r2, r3, r4] ++ pr1 ++ pr2 ++ pr3 ++ [rFinal]

/-- `RemediationDecisionEngine._generate_warnings`. -/
def generateWarningsModel (sim : SimulationResult) (usage : UsageMetrics)
    (graph : DependencyContext) (env : EnvironmentContext)
    (policy : PolicyContext) : List String :=
  sim.warnings
  ++ (if usage.observation_days < 30 then
        ["Limited observation period (" ++ toString usage.observation_days ++ " days)"] else [])
  ++ (if usage.sources_available < 2 then
        ["Single data source - consider enabling additional telemetry"] else [])
  ++ (if 0 < graph.cross_account_dependencies then
        ["Cross-account dependencies detected (" ++ toString graph.cross_account_dependencies ++ ")"]
      else [])
  ++ (if env.tier = 0 then ["Production environment - extra caution advised"] else [])
  ++ (if 0 < env.compliance_frameworks.length then
        ["Compliance frameworks apply: " ++ String.intercalate ", " env.compliance_frameworks]
      else [])
  ++ (if ¬ policy.has_rollback then ["No rollback mechanism available"] else [])
  ++ (if ¬ policy.change_window_open then ["Outside designated change window"] else [])

/-- `RemediationDecisionEngine.evaluate` on the already-typed contexts (the
`from_dict` conversions only supply defaults for missing JSON keys and are
not part of the evaluated semantics).  Returns the `RemediationDecision`
record; the hard-block branch mirrors `_block`. -/
def evaluate (O : MathOracle) (sim : SimulationResult) (usage : UsageMetrics)
    (dep : DependencyContext) (hist : HistoricalContext)
    (environ : EnvironmentContext) (pol : PolicyContext) : RemediationDecision :=
  if sim.critical_path_affected = true then
    blockDecision "Critical path affected - manual review required"
  else if dep.circular_dependencies = true then
    blockDecision "Circular dependencies detected - cannot safely remediate"
  else
    let sSim := simulationScore sim
    let sUse := usageScore O usage
    let sData := dataScore O usage dep
    let sDep := dependencyScore dep
    let sHist := historicalScore hist
    let confidence := clamp01
      (O.powQ sSim wSimulation * O.powQ sUse wUsage * O.powQ sData wData *
        O.powQ sDep wDependency * O.powQ sHist wHistorical)
    let safety := applySafetyRules confidence sim environ pol
    let action := (decideAction safety pol).value
    { confidence := confidence
      safety := safety
      action := action
      auto_allowed := autoAllowed pol (some environ)
      reasons := explainModel sim usage dep hist safety action pol
      breakdown :=
        [("simulation", sSim), ("usage", sUse), ("data", sData),
          ("dependency", sDep), ("historical", sHist)]
      warnings := generateWarningsModel sim usage dep environ pol }

/-! ## Workflow Orchestrator (workflow_orchestrator.py) -/

/-- Enum `WorkflowStatus`. -/
inductive WorkflowStatus where
  | PENDING
  | AWAITING_APPROVAL
  | APPROVED
  | REJECTED
  | CANARY_DEPLOYING
  | CANARY_MONITORING
  | CANARY_PROMOTING
  | EXECUTING
  | HEALTH_CHECK
  | COMPLETED
  | FAILED
  | ROLLED_BACK
  | EXPIRED
deriving DecidableEq

/-- Enum `WorkflowType`. -/
inductive WorkflowType where
  | AUTO_REMEDIATE
  | CANARY
  | REQUIRE_APPROVAL
  | SCHEDULED
deriving DecidableEq

/-- The health-check collaborator's report dict: the orchestrator reads
`should_rollback` (falsy when missing) and `rollback_reason`. -/
structure HealthResult where
  should_rollback : Bool
  rollback_reason : Option String
deriving DecidableEq

/-- Dataclass `ApprovalRequest`. -/
structure ApprovalRequest where
  id : String
  workflow_id : String
  finding_id : String
  resource_type : String
  resource_id : String
  requested_action : String
  confidence : ℚ
  safety : ℚ
  reasons : List String
  warnings : List String
  requested_by : String
  requested_at : String
  expires_at : String
  status : String
  reviewed_by : Option String
  reviewed_at : Option String
  review_comment : Option String
deriving DecidableEq

/-- One element of `CanaryDeployment.stages`
(`{"percentage": int, "status": str}`). -/
structure CanaryStage where
  percentage : ℤ
  status : String
deriving DecidableEq

/-- Dataclass `CanaryDeployment`. -/
structure CanaryDeployment where
  id : String
  workflow_id : String
  finding_id : String
  resource_id : String
  total_instances : ℤ
  canary_percentage : ℤ
  current_percentage : ℤ
  stages : List CanaryStage
  health_checks_passed : ℤ
  health_checks_failed : ℤ
  started_at : String
  last_stage_at : Option String
  promoted_at : Option String
  status : String
deriving DecidableEq

/-- Dataclass `Workflow`.  The stored decision is the engine's
`RemediationDecision`; the execution result payload is kept abstract as a
string. -/
structure Workflow where
  id : String
  finding_id : String
  resource_type : String
  resource_id : String
  workflow_type : WorkflowType
  status : WorkflowStatus
  decision : RemediationDecision
  created_at : String
  updated_at : String
  scheduled_for : Option String
  approval : Option ApprovalRequest
  canary : Option CanaryDeployment
  health_report : Option HealthResult
  execution_result : Option String
  error : Option String
deriving DecidableEq

/-- The three collaborator callbacks (`set_callbacks`); each is optional
(`None` when unset) and pure, with `Except.error msg` modelling the callback
raising an exception with message `msg`. -/
structure Collaborators where
  on_execute : Option (String → String → Option ℤ → Except String String)
  on_rollback : Option (String → String → Except String String)
  on_health_check : Option (String → String → Except String HealthResult)

/-- Errors surfaced by orchestrator operations: the two `ValueError` raise
sites of the source (workflow lookup / wrong-state check — the spec
taxonomy's ValidationError and ConflictError), Python `IndexError` on list
indexing, and an uncaught collaborator exception propagating to the
caller. -/
inductive OrchError where
  | workflowNotFound (workflowId : String)
  | notAwaitingApproval (status : WorkflowStatus)
  | canaryNotFound (workflowId : String)
  | indexError
  | raised (msg : String)
deriving DecidableEq

/-- The terminal-status set of `get_active_workflows`. -/
def isTerminal : WorkflowStatus → Bool
  | .COMPLETED => true
  | .FAILED => true
  | .ROLLED_BACK => true
  | .REJECTED => true
  | .EXPIRED => true
  | _ => false

/-- In-place update of one stage dict (`canary.stages[i]["status"] = ...`). -/
def updateStage : ℕ → (CanaryStage → CanaryStage) → List CanaryStage → List CanaryStage
  | _, _, [] => []
  | 0, f, st :: rest => f st :: rest
  | n + 1, f, st :: rest => st :: updateStage n f rest

/-- The stage-search loop of `advance_canary`: index of the first stage whose
status is "IN_PROGRESS" or "PENDING" (`current_idx`, `none` for the Python
sentinel `-1`). -/
def findStageIdx : List CanaryStage → Option ℕ
  | [] => none
  | st :: rest =>
    if st.status = "IN_PROGRESS" ∨ st.status = "PENDING" then some 0
    else (findStageIdx rest).map (· + 1)

/-- `WorkflowOrchestrator._rollback`: best-effort — a collaborator exception
is caught, recorded in `error`, and then overwritten by the rollback reason;
the workflow is always marked ROLLED_BACK. -/
def rollbackInternal (collab : Collaborators) (now : String) (reason : String)
    (w : Workflow) : Workflow :=
  let w1 := match collab.on_rollback with
    | some f =>
      match f w.finding_id w.resource_id with
      | .ok _ => w
      | .error e => { w with error := some ("Rollback failed: " ++ e) }
    | none => w
  { w1 with status := .ROLLED_BACK, error := some reason, updated_at := now }

/-- `WorkflowOrchestrator.rollback` (public entry; no status guard). -/
def rollback (collab : Collaborators) (now : String) (reason : String)
    (w : Workflow) : Workflow :=
  rollbackInternal collab now reason w

/-- The health-check / completion tail of
`WorkflowOrchestrator._execute_remediation` (after the execute call):
status HEALTH_CHECK, run the health check (exceptions caught → FAILED),
roll back if requested, else COMPLETED. -/
def executeHealthPhase (collab : Collaborators) (now : String) (w : Workflow) : Workflow :=
  let w1 := { w with status := WorkflowStatus.HEALTH_CHECK }
  match collab.on_health_check with
  | none => { w1 with status := .COMPLETED, updated_at := now }
  | some hc =>
    match hc w1.resource_type w1.resource_id with
    | .error e => { w1 with status := .FAILED, error := some e, updated_at := now }
    | .ok h =>
      let w2 := { w1 with health_report := some h }
      if h.should_rollback = true then
        rollbackInternal collab now (h.rollback_reason.getD "Health check failed") w2
      else { w2 with status := .COMPLETED, updated_at := now }

/-- `WorkflowOrchestrator._execute_remediation`: status EXECUTING, call the
execute collaborator (exceptions caught → terminal FAILED with `error` set),
then the health-check phase.  Total — never propagates an exception. -/
def executeRemediation (collab : Collaborators) (now : String) (w : Workflow) : Workflow :=
  let w0 := { w with status := WorkflowStatus.EXECUTING, updated_at := now }
  match collab.on_execute with
  | some f =>
    match f w0.finding_id w0.resource_id none with
    | .error e => { w0 with status := .FAILED, error := some e, updated_at := now }
    | .ok r => executeHealthPhase collab now { w0 with execution_result := some r }
  | none => executeHealthPhase collab now w0

/-- `WorkflowOrchestrator.approve` (on an already looked-up workflow — the
registry lookup precedes and raises `workflowNotFound` for unknown ids):
wrong-state guard first (no mutation on failure), then mark the approval
APPROVED, set status APPROVED, and synchronously run the execution
sub-flow. -/
def approve (collab : Collaborators) (now : String) (approved_by : String)
    (comment : Option String) (w : Workflow) : Except OrchError Workflow :=
  if w.status ≠ WorkflowStatus.AWAITING_APPROVAL then
    .error (.notAwaitingApproval w.status)
  else
    let w1 := { w with
      approval := w.approval.map (fun a =>
        { a with status := "APPROVED", reviewed_by := some approved_by,
                 reviewed_at := some now, review_comment := comment })
      status := .APPROVED
      updated_at := now }
    .ok (executeRemediation collab now w1)

/-- `WorkflowOrchestrator.reject` (no status guard in the source: any found
workflow is moved to REJECTED). -/
def reject (now : String) (rejected_by : String) (reason : Option String)
    (w : Workflow) : Workflow :=
  let w1 : Workflow := { w with
    approval := w.approval.map (fun (a : ApprovalRequest) =>
      { a with status := "REJECTED", reviewed_by := some rejected_by,
               reviewed_at := some now, review_comment := reason }) }
  { w1 with status := .REJECTED, updated_at := now }

/-- `WorkflowOrchestrator._create_canary`.  `canaryStages` is the
orchestrator's configured stage list (constructor default `[10, 25, 50, 100]`;
the `or`-defaulting in `__init__` makes it always non-empty, so the
`headD 0` models `self.canary_stages[0]`). -/
def createCanary (canaryStages : List ℤ) (canaryId : String) (now : String)
    (w : Workflow) : CanaryDeployment :=
  { id := canaryId
    workflow_id := w.id
    finding_id := w.finding_id
    resource_id := w.resource_id
    total_instances := 1
    canary_percentage := canaryStages.headD 0
    current_percentage := 0
    stages := canaryStages.map (fun p => { percentage := p, status := "PENDING" })
    health_checks_passed := 0
    health_checks_failed := 0
    started_at := now
    last_stage_at := none
    promoted_at := none
    status := "DEPLOYING" }

/-- `WorkflowOrchestrator._create_approval`.  The wall-clock expiry
`now + timedelta(hours=approval_timeout_hours)` is passed in as the
pre-rendered string `expiresAt`. -/
def createApproval (approvalId : String) (now expiresAt : String)
    (requested_by : String) (w : Workflow) : ApprovalRequest :=
  { id := approvalId
    workflow_id := w.id
    finding_id := w.finding_id
    resource_type := w.resource_type
    resource_id := w.resource_id
    requested_action := w.decision.action
    confidence := w.decision.confidence
    safety := w.decision.safety
    reasons := w.decision.reasons
    warnings := w.decision.warnings
    requested_by := requested_by
    requested_at := now
    expires_at := expiresAt
    status := "PENDING"
    reviewed_by := none
    reviewed_at := none
    review_comment := none }

/-- `WorkflowOrchestrator._action_to_workflow_type`. -/
def actionToWorkflowType (action : String) : WorkflowType :=
  if action = "AUTO_REMEDIATE" then .AUTO_REMEDIATE
  else if action = "CANARY" then .CANARY
  else if action = "REQUIRE_APPROVAL" then .REQUIRE_APPROVAL
  else if action = "BLOCK" then .REQUIRE_APPROVAL
  else .REQUIRE_APPROVAL

/-- Python truthiness of the optional `scheduled_for` string. -/
def scheduledTruthy : Option String → Bool
  | none => false
  | some s => s ≠ ""

/-- `WorkflowOrchestrator.create_workflow`.  The generated UUIDs are the
parameters `workflowId` / `subId`, the current wall-clock ISO string is
`now`, the approval expiry string is `expiresAt`, and the
`_in_change_window()` wall-clock test is the parameter `inChangeWindow`. -/
def createWorkflow (collab : Collaborators) (canaryStages : List ℤ)
    (workflowId subId now expiresAt : String)
    (finding_id resource_type resource_id : String)
    (decision : RemediationDecision) (requested_by : String)
    (scheduled_for : Option String) (inChangeWindow : Bool) : Workflow :=
  let workflowType := actionToWorkflowType decision.action
  let w : Workflow :=
    { id := workflowId
      finding_id := finding_id
      resource_type := resource_type
      resource_id := resource_id
      workflow_type := workflowType
      status := .PENDING
      decision := decision
      created_at := now
      updated_at := now
      scheduled_for := scheduled_for
      approval := none
      canary := none
      health_report := none
      execution_result := none
      error := none }
  if workflowType = .REQUIRE_APPROVAL then
    { w with approval := some (createApproval subId now expiresAt requested_by w)
             status := .AWAITING_APPROVAL }
  else if workflowType = .CANARY then
    { w with canary := some (createCanary canaryStages subId now w)
             status := .CANARY_DEPLOYING }
  else if workflowType = .AUTO_REMEDIATE then
    (if scheduledTruthy scheduled_for = true ∧ inChangeWindow = false then w
     else executeRemediation collab now w)
  else w

/-- `WorkflowOrchestrator.start_canary`: execute the first canary stage (an
execute-collaborator exception propagates — there is no handler), mark stage
0 IN_PROGRESS, status CANARY_MONITORING. -/
def startCanary (collab : Collaborators) (now : String) (w : Workflow) :
    Except OrchError Workflow :=
  match w.canary with
  | none => .error (.canaryNotFound w.id)
  | some canary =>
    let execStep : Except OrchError (Option String) :=
      match collab.on_execute with
      | none => .ok none
      | some f =>
        match f w.finding_id w.resource_id (some canary.canary_percentage) with
        | .error e => .error (.raised e)
        | .ok r => .ok (some r)
    match execStep with
    | .error e => .error e
    | .ok res =>
      let w1 := match res with
        | some r => { w with execution_result := some r }
        | none => w
      match canary.stages with
      | [] => .error .indexError
      | _ :: _ =>
        .ok { w1 with
          status := .CANARY_MONITORING
          updated_at := now
          canary := some { canary with
            stages := updateStage 0 (fun st => { st with status := "IN_PROGRESS" }) canary.stages } }

/-- `WorkflowOrchestrator.advance_canary`.  The health-check collaborator is
invoked outside any exception handler, so its exception propagates
(`OrchError.raised`); two accumulated failed checks trigger the internal
rollback; otherwise the current stage is completed and the next one
started. -/
def advanceCanary (collab : Collaborators) (now : String) (w : Workflow) :
    Except OrchError Workflow :=
  match w.canary with
  | none => .error (.canaryNotFound w.id)
  | some canary =>
    match findStageIdx canary.stages with
    | none =>
      .ok { w with
        status := .COMPLETED
        canary := some { canary with status := "COMPLETED", promoted_at := some now } }
    | some idx =>
      let healthStep : Except OrchError (Sum Workflow CanaryDeployment) :=
        match collab.on_health_check with
        | none => .ok (.inr canary)
        | some hc =>
          match hc w.resource_type w.resource_id with
          | .error e => .error (.raised e)
          | .ok h =>
            if h.should_rollback = true then
              let canary1 := { canary with health_checks_failed := canary.health_checks_failed + 1 }
              if 2 ≤ canary1.health_checks_failed then
                .ok (.inl (rollbackInternal collab now "Canary health check failed"
                  { w with canary := some canary1 }))
              else .ok (.inr canary1)
            else .ok (.inr { canary with health_checks_passed := canary.health_checks_passed + 1 })
      match healthStep with
      | .error e => .error e
      | .ok (.inl wRolled) => .ok wRolled
      | .ok (.inr canary2) =>
        match canary2.stages.get? idx with
        | none => .error .indexError
        | some stage =>
          let canary3 := { canary2 with
            stages := updateStage idx (fun st => { st with status := "COMPLETED" }) canary2.stages
            current_percentage := stage.percentage
            last_stage_at := some now }
          if (100 : ℤ) ≤ canary3.current_percentage then
            .ok { w with
              status := .COMPLETED
              updated_at := now
              canary := some { canary3 with status := "COMPLETED", promoted_at := some now } }
          else
            match canary3.stages.get? (idx + 1) with
            | some nxt =>
              .ok { w with
                status := .CANARY_MONITORING
                updated_at := now
                canary := some { canary3 with
                  stages := updateStage (idx + 1) (fun st => { st with status := "IN_PROGRESS" })
                    canary3.stages
                  canary_percentage := nxt.percentage } }
            | none => .ok { w with updated_at := now, canary := some canary3 }

/-! ## Concrete fixtures (used by witnesses and counterexamples) -/

/-- A concrete oracle (all claim theorems hold for every oracle; witnesses
instantiate this one). -/
def oneOracle : MathOracle :=
  { expQ := fun _ => 0, log10Q := fun _ => 0, powQ := fun _ _ => 1 }

/-- Scenario-A simulation context (spec.md §8). -/
def simA : SimulationResult :=
  { status := "SAFE", reachability_preserved := 94 / 100, critical_path_affected := false,
    worst_path_severity := 1 / 10, permissions_tested := 15, permissions_safe := 14,
    services_tested := [], warnings := [] }

/-- Scenario-A simulation context with the hard-block flag raised. -/
def simBlocked : SimulationResult := { simA with critical_path_affected := true }

/-- Scenario-A usage context. -/
def useA : UsageMetrics :=
  { days_since_last_use := 120, usage_count_90d := 0, observation_days := 90,
    sources_available := 3, last_used_by := none, usage_pattern := "NONE" }

/-- Scenario-A dependency context. -/
def depA : DependencyContext :=
  { total_resources := 5, resources_with_telemetry := 5, edges_observed := 8,
    edges_estimated := 10, impacted_services := [], cross_account_dependencies := 0,
    circular_dependencies := false }

/-- Scenario-A historical context. -/
def histA : HistoricalContext :=
  { total := 23, successes := 23, rollbacks := 0,
    similar_resource_type_success_rate := 1, last_failure_days_ago := none }

/-- Scenario-A environment context. -/
def envA : EnvironmentContext :=
  { tier := 2, region := "us-east-1", account_id := "", is_multi_region := false,
    compliance_frameworks := [] }

/-- Scenario-A policy context. -/
def polA : PolicyContext :=
  { shared_resource := false, revenue_generating := false, has_rollback := true,
    change_window_open := true, tier := 2, requires_approval_above_tier := 1,
    max_auto_remediate_severity := "MEDIUM" }

/-- A low-safety policy variant (revenue cap, no rollback, closed window). -/
def polLow : PolicyContext :=
  { shared_resource := false, revenue_generating := true, has_rollback := false,
    change_window_open := false, tier := 2, requires_approval_above_tier := 1,
    max_auto_remediate_severity := "MEDIUM" }

/-- A concrete CANARY decision record. -/
def canaryDec : RemediationDecision :=
  { confidence := 82 / 100, safety := 78 / 100, action := "CANARY", auto_allowed := true,
    reasons := [], breakdown := [], warnings := [] }

/-- A health-check collaborator that always passes (`should_rollback` false). -/
def passHC : String → String → Except String HealthResult :=
  fun _ _ => .ok { should_rollback := false, rollback_reason := none }

/-- A health-check collaborator that always raises. -/
def boomHC : String → String → Except String HealthResult :=
  fun _ _ => .error "health check crashed"

/-- A health-check collaborator that reports an unhealthy state
(`should_rollback` true) without raising. -/
def failHC : String → String → Except String HealthResult :=
  fun _ _ => .ok { should_rollback := true, rollback_reason := some "error rate spike" }

/-- An execute collaborator that always succeeds. -/
def okExec : String → String → Option ℤ → Except String String :=
  fun _ _ _ => .ok "done"

/-- An execute collaborator that always raises. -/
def boomExec : String → String → Option ℤ → Except String String :=
  fun _ _ _ => .error "exec boom"

/-- Collaborators: succeeding execute, passing health check, no rollback hook. -/
def collabOK : Collaborators :=
  { on_execute := some okExec, on_rollback := none, on_health_check := some passHC }

/-- Collaborators whose health check raises. -/
def collabBoomHC : Collaborators :=
  { on_execute := some okExec, on_rollback := none, on_health_check := some boomHC }

/-- Collaborators whose execute raises. -/
def collabBoomExec : Collaborators :=
  { on_execute := some boomExec, on_rollback := none, on_health_check := some passHC }

/-- Collaborators whose health check reports `should_rollback` true. -/
def collabFailHC : Collaborators :=
  { on_execute := some okExec, on_rollback := none, on_health_check := some failHC }

/-- A rollback collaborator that always raises. -/
def boomRB : String → String → Except String String :=
  fun _ _ => .error "rollback crashed"

/-- Collaborators whose rollback hook raises. -/
def collabBoomRB : Collaborators :=
  { on_execute := some okExec, on_rollback := some boomRB, on_health_check := some passHC }

/-- A freshly created canary workflow (default stages, CANARY decision). -/
def wfCanary : Workflow :=
  createWorkflow collabOK [10, 25, 50, 100] "wf-1" "cn-1" "t0" "texp"
    "finding-1" "IAMRole" "role-1" canaryDec "system" none true

/-- A workflow that has reached the terminal COMPLETED state. -/
def wfDone : Workflow :=
  { id := "wf-2", finding_id := "finding-2", resource_type := "IAMRole",
    resource_id := "role-2", workflow_type := .AUTO_REMEDIATE,
    status := .COMPLETED, decision := canaryDec, created_at := "t0",
    updated_at := "t1", scheduled_for := none, approval := none, canary := none,
    health_report := none, execution_result := some "done", error := none }

/-- A workflow already rolled back. -/
def wfRolledBack : Workflow :=
  { wfDone with id := "wf-3", status := .ROLLED_BACK, error := some "Manual rollback" }

/-- A concrete pending approval request. -/
def apprPending : ApprovalRequest :=
  { id := "ap-1", workflow_id := "wf-4", finding_id := "finding-4",
    resource_type := "IAMRole", resource_id := "role-4",
    requested_action := "REQUIRE_APPROVAL", confidence := 72 / 100, safety := 68 / 100,
    reasons := [], warnings := [], requested_by := "scanner", requested_at := "t0",
    expires_at := "t24", status := "PENDING", reviewed_by := none, reviewed_at := none,
    review_comment := none }

/-- A workflow awaiting approval. -/
def wfAwait : Workflow :=
  { wfDone with
    id := "wf-4", status := .AWAITING_APPROVAL,
    approval := some apprPending, execution_result := none }

/-- A canary deployment mid-monitoring (stage 0 in progress). -/
def monCanary : CanaryDeployment :=
  { id := "cn-5", workflow_id := "wf-5", finding_id := "finding-2",
    resource_id := "role-2", total_instances := 1, canary_percentage := 10,
    current_percentage := 0,
    stages :=
      [{ percentage := 10, status := "IN_PROGRESS" },
       { percentage := 25, status := "PENDING" },
       { percentage := 50, status := "PENDING" },
       { percentage := 100, status := "PENDING" }],
    health_checks_passed := 0, health_checks_failed := 0, started_at := "t1",
    last_stage_at := none, promoted_at := none, status := "DEPLOYING" }

/-- A canary workflow mid-monitoring (stage 0 in progress). -/
def wfMon : Workflow :=
  { wfDone with
    id := "wf-5", status := .CANARY_MONITORING, execution_result := none,
    canary := some monCanary }

/-! ## Helper lemmas -/

theorem clamp01_mem (x : ℚ) : 0 ≤ clamp01 x ∧ clamp01 x ≤ 1 := by
  unfold clamp01
  exact ⟨le_max_left 0 _, max_le (by norm_num) (min_le_left 1 x)⟩

theorem simulationScore_mem (sim : SimulationResult) :
    0 ≤ simulationScore sim ∧ simulationScore sim ≤ 1 := clamp01_mem _

theorem usageScore_mem (O : MathOracle) (u : UsageMetrics) :
    0 ≤ usageScore O u ∧ usageScore O u ≤ 1 := by
  unfold usageScore
  split_ifs
  · norm_num
  · norm_num
  · exact clamp01_mem _

theorem dataScore_mem (O : MathOracle) (u : UsageMetrics) (g : DependencyContext) :
    0 ≤ dataScore O u g ∧ dataScore O u g ≤ 1 := clamp01_mem _

theorem dependencyScore_mem (g : DependencyContext) :
    0 ≤ dependencyScore g ∧ dependencyScore g ≤ 1 := clamp01_mem _

theorem historicalScore_mem (h : HistoricalContext) :
    0 ≤ historicalScore h ∧ historicalScore h ≤ 1 := by
  unfold historicalScore
  split_ifs
  · norm_num
  all_goals exact clamp01_mem _

theorem applySafetyRules_mem (s : ℚ) (sim : SimulationResult)
    (env : EnvironmentContext) (policy : PolicyContext) :
    0 ≤ applySafetyRules s sim env policy ∧ applySafetyRules s sim env policy ≤ 1 :=
  clamp01_mem _

set_option maxHeartbeats 1000000 in
/-- The source's adjustment order and the spec's stated order agree: the two
definitions differ only in swapping the severity multiplication with the
conditional compliance multiplication, and multiplication commutes. -/
theorem applySafetyRules_eq_spec (s : ℚ) (sim : SimulationResult)
    (env : EnvironmentContext) (policy : PolicyContext) :
    applySafetyRules s sim env policy = specSafetyAdjust s sim env policy := by
  simp only [applySafetyRules, specSafetyAdjust]
  split_ifs <;> exact congrArg clamp01 (by ring)

/-- Permissiveness rank of an action string:
BLOCK < REQUIRE_APPROVAL < CANARY < AUTO_REMEDIATE. -/
def actionRank (a : String) : ℕ :=
  if a = "REQUIRE_APPROVAL" then 1
  else if a = "CANARY" then 2
  else if a = "AUTO_REMEDIATE" then 3
  else 0

/-- `_decide_action` is monotone in safety for a fixed `_auto_allowed`
verdict. -/
theorem decideAction_rank_mono (p1 p2 : PolicyContext) (s1 s2 : ℚ)
    (hauto : autoAllowed p1 none = autoAllowed p2 none) (hs : s1 ≤ s2) :
    actionRank (decideAction s1 p1).value ≤ actionRank (decideAction s2 p2).value := by
  unfold decideAction
  by_cases hA1 : THRESHOLD_AUTO ≤ s1 ∧ autoAllowed p1 none = true
  · have hA2 : THRESHOLD_AUTO ≤ s2 ∧ autoAllowed p2 none = true :=
      ⟨le_trans hA1.1 hs, hauto ▸ hA1.2⟩
    rw [if_pos hA1, if_pos hA2]
  · rw [if_neg hA1]
    by_cases hC1 : THRESHOLD_CANARY ≤ s1
    · rw [if_pos hC1]
      have hC2 : THRESHOLD_CANARY ≤ s2 := le_trans hC1 hs
      by_cases hA2 : THRESHOLD_AUTO ≤ s2 ∧ autoAllowed p2 none = true
      · rw [if_pos hA2]
        simp only [RemediationAction.value, actionRank]
        decide
      · rw [if_neg hA2, if_pos hC2]
    · rw [if_neg hC1]
      by_cases hP1 : THRESHOLD_APPROVAL ≤ s1
      · rw [if_pos hP1]
        have hP2 : THRESHOLD_APPROVAL ≤ s2 := le_trans hP1 hs
        by_cases hA2 : THRESHOLD_AUTO ≤ s2 ∧ autoAllowed p2 none = true
        · rw [if_pos hA2]
          simp only [RemediationAction.value, actionRank]
          decide
        · rw [if_neg hA2]
          by_cases hC2 : THRESHOLD_CANARY ≤ s2
          · rw [if_pos hC2]
            simp only [RemediationAction.value, actionRank]
            decide
          · rw [if_neg hC2, if_pos hP2]
      · rw [if_neg hP1]
        have h0 : actionRank RemediationAction.BLOCK.value = 0 := by
          simp only [RemediationAction.value, actionRank]
          decide
        rw [h0]
        exact Nat.zero_le _

/-- For a non-hard-blocked evaluation, the decision's action string is
`_decide_action` applied to the decision's own safety. -/
theorem evaluate_action_eq (O : MathOracle) (sim : SimulationResult)
    (usage : UsageMetrics) (dep : DependencyContext) (hist : HistoricalContext)
    (environ : EnvironmentContext) (pol : PolicyContext)
    (h1 : sim.critical_path_affected = false) (h2 : dep.circular_dependencies = false) :
    (evaluate O sim usage dep hist environ pol).action =
      (decideAction (evaluate O sim usage dep hist environ pol).safety pol).value := by
  simp only [evaluate, h1, h2, Bool.false_eq_true, if_false]

/-- For a non-hard-blocked evaluation, the decision's `auto_allowed` field is
`_auto_allowed` of the policy (the env argument is ignored by the source). -/
theorem evaluate_auto_allowed_eq (O : MathOracle) (sim : SimulationResult)
    (usage : UsageMetrics) (dep : DependencyContext) (hist : HistoricalContext)
    (environ : EnvironmentContext) (pol : PolicyContext)
    (h1 : sim.critical_path_affected = false) (h2 : dep.circular_dependencies = false) :
    (evaluate O sim usage dep hist environ pol).auto_allowed = autoAllowed pol none := by
  simp only [evaluate, h1, h2, Bool.false_eq_true, if_false]
  rfl

/-- For a non-hard-blocked evaluation, the decision's safety is
`_apply_safety_rules` of the decision's own confidence. -/
theorem evaluate_safety_eq (O : MathOracle) (sim : SimulationResult)
    (usage : UsageMetrics) (dep : DependencyContext) (hist : HistoricalContext)
    (environ : EnvironmentContext) (pol : PolicyContext)
    (h1 : sim.critical_path_affected = false) (h2 : dep.circular_dependencies = false) :
    (evaluate O sim usage dep hist environ pol).safety =
      applySafetyRules (evaluate O sim usage dep hist environ pol).confidence
        sim environ pol := by
  simp only [evaluate, h1, h2, Bool.false_eq_true, if_false]

/-- For a non-hard-blocked evaluation, the decision's confidence is the
clamped weighted product of the five per-signal scores. -/
theorem evaluate_confidence_eq (O : MathOracle) (sim : SimulationResult)
    (usage : UsageMetrics) (dep : DependencyContext) (hist : HistoricalContext)
    (environ : EnvironmentContext) (pol : PolicyContext)
    (h1 : sim.critical_path_affected = false) (h2 : dep.circular_dependencies = false) :
    (evaluate O sim usage dep hist environ pol).confidence =
      clamp01 (O.powQ (simulationScore sim) wSimulation *
        O.powQ (usageScore O usage) wUsage * O.powQ (dataScore O usage dep) wData *
        O.powQ (dependencyScore dep) wDependency *
        O.powQ (historicalScore hist) wHistorical) := by
  simp only [evaluate, h1, h2, Bool.false_eq_true, if_false]

/-- For a non-hard-blocked evaluation, the breakdown is the five-entry score
dict in insertion order. -/
theorem evaluate_breakdown_eq (O : MathOracle) (sim : SimulationResult)
    (usage : UsageMetrics) (dep : DependencyContext) (hist : HistoricalContext)
    (environ : EnvironmentContext) (pol : PolicyContext)
    (h1 : sim.critical_path_affected = false) (h2 : dep.circular_dependencies = false) :
    (evaluate O sim usage dep hist environ pol).breakdown =
      [("simulation", simulationScore sim), ("usage", usageScore O usage),
        ("data", dataScore O usage dep), ("dependency", dependencyScore dep),
        ("historical", historicalScore hist)] := by
  simp only [evaluate, h1, h2, Bool.false_eq_true, if_false]

/-! ## Claims -/

/-- Claim C1: for every input where the simulation context has
`critical_path_affected` true or the dependency context has
`circular_dependencies` true, `evaluate` returns a decision with confidence
0, safety 0, action BLOCK, `auto_allowed` false, and an empty breakdown
(no signal scores computed). -/
theorem c1_hard_block (O : MathOracle) (sim : SimulationResult)
    (usage : UsageMetrics) (dep : DependencyContext) (hist : HistoricalContext)
    (environ : EnvironmentContext) (pol : PolicyContext)
    (h : sim.critical_path_affected = true ∨ dep.circular_dependencies = true) :
    (evaluate O sim usage dep hist environ pol).confidence = 0 ∧
    (evaluate O sim usage dep hist environ pol).safety = 0 ∧
    (evaluate O sim usage dep hist environ pol).action = "BLOCK" ∧
    (evaluate O sim usage dep hist environ pol).auto_allowed = false ∧
    (evaluate O sim usage dep hist environ pol).breakdown = [] := by
  by_cases hc : sim.critical_path_affected = true
  · simp [evaluate, hc, blockDecision]
  · rcases h with h | h
    · exact absurd h hc
    · simp [evaluate, hc, h, blockDecision]

/-- Witness for C1 at a concrete hard-blocked input. -/
theorem c1_hard_block_witness :
    (simBlocked.critical_path_affected = true ∨ depA.circular_dependencies = true) ∧
    ((evaluate oneOracle simBlocked useA depA histA envA polA).confidence = 0 ∧
     (evaluate oneOracle simBlocked useA depA histA envA polA).safety = 0 ∧
     (evaluate oneOracle simBlocked useA depA histA envA polA).action = "BLOCK" ∧
     (evaluate oneOracle simBlocked useA depA histA envA polA).auto_allowed = false ∧
     (evaluate oneOracle simBlocked useA depA histA envA polA).breakdown = []) :=
  ⟨Or.inl rfl, c1_hard_block oneOracle simBlocked useA depA histA envA polA (Or.inl rfl)⟩

/-- Claim C2: for all valid inputs the decision's confidence and safety lie
in [0,1], every breakdown value lies in [0,1], and the five aggregation
weights sum to exactly 1. -/
theorem c2_bounds (O : MathOracle) (sim : SimulationResult)
    (usage : UsageMetrics) (dep : DependencyContext) (hist : HistoricalContext)
    (environ : EnvironmentContext) (pol : PolicyContext) :
    (0 ≤ (evaluate O sim usage dep hist environ pol).confidence ∧
      (evaluate O sim usage dep hist environ pol).confidence ≤ 1) ∧
    (0 ≤ (evaluate O sim usage dep hist environ pol).safety ∧
      (evaluate O sim usage dep hist environ pol).safety ≤ 1) ∧
    (∀ name q, (name, q) ∈ (evaluate O sim usage dep hist environ pol).breakdown →
      0 ≤ q ∧ q ≤ 1) ∧
    wSimulation + wUsage + wData + wDependency + wHistorical = 1 := by
  refine ⟨?_, ?_, ?_, by norm_num [wSimulation, wUsage, wData, wDependency, wHistorical]⟩
  all_goals by_cases hc : sim.critical_path_affected = true
  case pos => simp [evaluate, hc, blockDecision]
  case pos => simp [evaluate, hc, blockDecision]
  case pos => intro name q hmem; simp [evaluate, hc, blockDecision] at hmem
  all_goals by_cases hd : dep.circular_dependencies = true
  case pos => simp [evaluate, hc, hd, blockDecision]
  case pos => simp [evaluate, hc, hd, blockDecision]
  case pos => intro name q hmem; simp [evaluate, hc, hd, blockDecision] at hmem
  all_goals
    have hc' : sim.critical_path_affected = false := by simpa using hc
  all_goals
    have hd' : dep.circular_dependencies = false := by simpa using hd
  · rw [evaluate_confidence_eq O sim usage dep hist environ pol hc' hd']
    exact clamp01_mem _
  · rw [evaluate_safety_eq O sim usage dep hist environ pol hc' hd']
    exact applySafetyRules_mem _ _ _ _
  · intro name q hmem
    rw [evaluate_breakdown_eq O sim usage dep hist environ pol hc' hd'] at hmem
    simp only [List.mem_cons, List.not_mem_nil, or_false, Prod.mk.injEq] at hmem
    rcases hmem with ⟨-, rfl⟩ | ⟨-, rfl⟩ | ⟨-, rfl⟩ | ⟨-, rfl⟩ | ⟨-, rfl⟩
    · exact simulationScore_mem sim
    · exact usageScore_mem O usage
    · exact dataScore_mem O usage dep
    · exact dependencyScore_mem dep
    · exact historicalScore_mem hist

/-- Witness for C2 at a concrete input, including one concrete breakdown
entry. -/
theorem c2_bounds_witness :
    (0 ≤ (evaluate oneOracle simA useA depA histA envA polA).confidence ∧
      (evaluate oneOracle simA useA depA histA envA polA).confidence ≤ 1) ∧
    (0 ≤ simulationScore simA ∧ simulationScore simA ≤ 1) ∧
    wSimulation + wUsage + wData + wDependency + wHistorical = 1 :=
  ⟨(c2_bounds oneOracle simA useA depA histA envA polA).1,
   (c2_bounds oneOracle simA useA depA histA envA polA).2.2.1 "simulation"
     (simulationScore simA) (by simp [evaluate, simA, depA]),
   (c2_bounds oneOracle simA useA depA histA envA polA).2.2.2⟩

/-- Claim C3: for every non-hard-blocked input, the returned safety equals
the confidence run through the seven adjustment steps in the spec's order
(tier-0/shared cap 0.70; revenue cap 0.75; rollback boost/penalty; change
window ×0.70; ×(1 − worst_path_severity·0.3); ×0.95 for ≥2 compliance
frameworks; ×0.90 for multi-region) with the final value clamped to [0,1]:
the source applies the compliance and severity factors in the opposite
order, but the two multiplications commute. -/
theorem c3_safety_steps (O : MathOracle) (sim : SimulationResult)
    (usage : UsageMetrics) (dep : DependencyContext) (hist : HistoricalContext)
    (environ : EnvironmentContext) (pol : PolicyContext)
    (h1 : sim.critical_path_affected = false) (h2 : dep.circular_dependencies = false) :
    (evaluate O sim usage dep hist environ pol).safety =
      specSafetyAdjust (evaluate O sim usage dep hist environ pol).confidence
        sim environ pol := by
  rw [evaluate_safety_eq O sim usage dep hist environ pol h1 h2]
  exact applySafetyRules_eq_spec _ _ _ _

/-- Witness for C3 at a concrete non-blocked input. -/
theorem c3_safety_steps_witness :
    (simA.critical_path_affected = false ∧ depA.circular_dependencies = false) ∧
    (evaluate oneOracle simA useA depA histA envA polA).safety =
      specSafetyAdjust (evaluate oneOracle simA useA depA histA envA polA).confidence
        simA envA polA :=
  ⟨⟨rfl, rfl⟩, c3_safety_steps oneOracle simA useA depA histA envA polA rfl rfl⟩

/-- Claim C4: action selection is monotone in safety — for two non-blocked
evaluations whose decisions carry the same `auto_allowed` value, strictly
higher safety never yields a strictly less permissive action under
BLOCK < REQUIRE_APPROVAL < CANARY < AUTO_REMEDIATE. -/
theorem c4_action_monotone (O1 O2 : MathOracle)
    (sim1 sim2 : SimulationResult) (usage1 usage2 : UsageMetrics)
    (dep1 dep2 : DependencyContext) (hist1 hist2 : HistoricalContext)
    (environ1 environ2 : EnvironmentContext) (pol1 pol2 : PolicyContext)
    (hb1 : sim1.critical_path_affected = false) (hb1c : dep1.circular_dependencies = false)
    (hb2 : sim2.critical_path_affected = false) (hb2c : dep2.circular_dependencies = false)
    (hauto : (evaluate O1 sim1 usage1 dep1 hist1 environ1 pol1).auto_allowed =
      (evaluate O2 sim2 usage2 dep2 hist2 environ2 pol2).auto_allowed)
    (hs : (evaluate O1 sim1 usage1 dep1 hist1 environ1 pol1).safety <
      (evaluate O2 sim2 usage2 dep2 hist2 environ2 pol2).safety) :
    actionRank (evaluate O1 sim1 usage1 dep1 hist1 environ1 pol1).action ≤
      actionRank (evaluate O2 sim2 usage2 dep2 hist2 environ2 pol2).action := by
  rw [evaluate_action_eq O1 sim1 usage1 dep1 hist1 environ1 pol1 hb1 hb1c,
      evaluate_action_eq O2 sim2 usage2 dep2 hist2 environ2 pol2 hb2 hb2c]
  rw [evaluate_auto_allowed_eq O1 sim1 usage1 dep1 hist1 environ1 pol1 hb1 hb1c,
      evaluate_auto_allowed_eq O2 sim2 usage2 dep2 hist2 environ2 pol2 hb2 hb2c] at hauto
  exact decideAction_rank_mono pol1 pol2 _ _ hauto (le_of_lt hs)

/-- Witness for C4: a concrete low-safety decision versus a concrete
high-safety decision with equal `auto_allowed`. -/
theorem c4_action_monotone_witness :
    simA.critical_path_affected = false ∧ depA.circular_dependencies = false ∧
    (evaluate oneOracle simA useA depA histA envA polLow).auto_allowed =
      (evaluate oneOracle simA useA depA histA envA polA).auto_allowed ∧
    (evaluate oneOracle simA useA depA histA envA polLow).safety <
      (evaluate oneOracle simA useA depA histA envA polA).safety ∧
    actionRank (evaluate oneOracle simA useA depA histA envA polLow).action ≤
      actionRank (evaluate oneOracle simA useA depA histA envA polA).action := by
  have e1 : (evaluate oneOracle simA useA depA histA envA polLow).safety = 34629 / 80000 := by
    norm_num [evaluate, simA, useA, depA, histA, envA, polLow, oneOracle, applySafetyRules,
      clamp01, simulationScore, usageScore, dataScore, dependencyScore, historicalScore,
      statusScore, safe_div, wSimulation, wUsage, wData, wDependency, wHistorical,
      min_def, max_def]
  have e2 : (evaluate oneOracle simA useA depA histA envA polA).safety = 97 / 100 := by
    norm_num [evaluate, simA, useA, depA, histA, envA, polA, oneOracle, applySafetyRules,
      clamp01, simulationScore, usageScore, dataScore, dependencyScore, historicalScore,
      statusScore, safe_div, wSimulation, wUsage, wData, wDependency, wHistorical,
      min_def, max_def]
  have hlt : (evaluate oneOracle simA useA depA histA envA polLow).safety <
      (evaluate oneOracle simA useA depA histA envA polA).safety := by
    rw [e1, e2]; norm_num
  exact ⟨rfl, rfl, rfl, hlt,
    c4_action_monotone oneOracle oneOracle simA simA useA useA depA depA histA histA
      envA envA polLow polA rfl rfl rfl rfl rfl hlt⟩

/-- Claim C5 (amended) — counterexample to the original claim: in the
concrete default-stage canary run with every health check passing,
`start_canary` followed by exactly three `advance_canary` calls leaves the
workflow in status CANARY_MONITORING with `current_percentage` 50, not
COMPLETED with 100 (each advance completes one of the four stages, so a
fourth call is needed). -/
theorem c5_counterexample :
    (((((startCanary collabOK "t1" wfCanary).bind (advanceCanary collabOK "t2")).bind
        (advanceCanary collabOK "t3")).bind (advanceCanary collabOK "t4")).map
      (fun w => (w.status, w.canary.map (fun (c : CanaryDeployment) => c.current_percentage))))
      = Except.ok (WorkflowStatus.CANARY_MONITORING, some 50) := by
  rfl

/-- Claim C5 (amended): for a canary workflow created with the default
stages [10, 25, 50, 100], `start_canary` followed by exactly FOUR
`advance_canary` calls, with every health check passing, leaves the
workflow in status COMPLETED with `canary.current_percentage` = 100
(identifiers, timestamps, the executor's result payload and the other
decision fields are arbitrary). -/
theorem c5_amended (exf : String → String → Option ℤ → String)
    (orb : Option (String → String → Except String String))
    (wid cid t0 te t1 t2 t3 t4 t5 fid rty rid rby : String)
    (conf sf : ℚ) (rs ws : List String) (bd : List (String × ℚ)) (aa : Bool)
    (sch : Option String) (icw : Bool) :
    (let collab : Collaborators :=
      { on_execute := some (fun a b c => .ok (exf a b c)), on_rollback := orb,
        on_health_check := some passHC }
    let dec : RemediationDecision :=
      { confidence := conf, safety := sf, action := "CANARY", auto_allowed := aa,
        reasons := rs, breakdown := bd, warnings := ws }
    let w0 := createWorkflow collab [10, 25, 50, 100] wid cid t0 te fid rty rid dec rby sch icw
    ((((((startCanary collab t1 w0).bind (advanceCanary collab t2)).bind
        (advanceCanary collab t3)).bind (advanceCanary collab t4)).bind
        (advanceCanary collab t5)).map
      (fun w => (w.status, w.canary.map (fun (c : CanaryDeployment) => c.current_percentage))))
      = Except.ok (WorkflowStatus.COMPLETED, some 100)) := by
  rfl

/-- Claim C6 — counterexample: `reject` is not guarded by terminal status;
on a concrete workflow already in terminal state COMPLETED it changes the
status to REJECTED, so terminal states do admit further transitions. -/
theorem c6_counterexample :
    isTerminal wfDone.status = true ∧
    (reject "t9" "ops@example.com" none wfDone).status = WorkflowStatus.REJECTED ∧
    (reject "t9" "ops@example.com" none wfDone).status ≠ wfDone.status := by
  refine ⟨rfl, rfl, ?_⟩
  intro h
  exact WorkflowStatus.noConfusion h

/-- Claim C6 (amended): for a workflow in a terminal state (COMPLETED,
FAILED, ROLLED_BACK, REJECTED, EXPIRED), `approve` fails with the
wrong-state error and performs no state change; but the remaining
operations are not guarded by terminal status — `reject` moves any workflow
to REJECTED and `rollback` moves any workflow to ROLLED_BACK (as the
counterexample shows on a COMPLETED workflow). -/
theorem c6_amended (collab : Collaborators) (now approver : String)
    (comment : Option String) (w : Workflow) (h : isTerminal w.status = true) :
    approve collab now approver comment w =
      Except.error (OrchError.notAwaitingApproval w.status) ∧
    (reject now approver comment w).status = WorkflowStatus.REJECTED ∧
    (rollback collab now "Manual rollback" w).status = WorkflowStatus.ROLLED_BACK := by
  refine ⟨?_, ?_, ?_⟩
  · have hne : w.status ≠ WorkflowStatus.AWAITING_APPROVAL := by
      intro he
      rw [he] at h
      exact Bool.noConfusion h
    simp [approve, hne]
  · rfl
  · unfold rollback rollbackInternal
    cases collab.on_rollback with
    | none => rfl
    | some f => cases f w.finding_id w.resource_id <;> rfl

/-- Witness for the amended C6 at a concrete terminal workflow. -/
theorem c6_amended_witness :
    isTerminal wfRolledBack.status = true ∧
    (approve collabOK "t9" "ops@example.com" none wfRolledBack =
      Except.error (OrchError.notAwaitingApproval wfRolledBack.status) ∧
    (reject "t9" "ops@example.com" none wfRolledBack).status = WorkflowStatus.REJECTED ∧
    (rollback collabOK "t9" "Manual rollback" wfRolledBack).status =
      WorkflowStatus.ROLLED_BACK) :=
  ⟨rfl, c6_amended collabOK "t9" "ops@example.com" none wfRolledBack rfl⟩

/-- Claim C7 — counterexample: in `advance_canary` the health-check
collaborator is called outside any exception handler, so on a concrete
mid-canary workflow a raising health check makes the operation itself fail
with the propagated exception instead of returning a workflow in the FAILED
state. -/
theorem c7_counterexample :
    advanceCanary collabBoomHC "t2" wfMon =
      Except.error (OrchError.raised "health check crashed") := by
  rfl

/-- Claim C7 (amended): in the execution sub-flow (`_execute_remediation`,
used by `approve` and auto-remediation) a raising execute collaborator and a
raising health-check collaborator are each caught at the call site and
convert the workflow to terminal FAILED with `error` populated, without
propagating (the function is total); but `advance_canary` and `start_canary`
invoke the health-check and execute collaborators outside any exception
handler, so those exceptions propagate to the caller uncaught; and a raising
rollback collaborator still yields ROLLED_BACK with `error` ending as the
rollback reason, not FAILED. -/
theorem c7_amended :
    (∀ (collab : Collaborators) (now : String) (w : Workflow)
        (f : String → String → Option ℤ → Except String String) (e : String),
      collab.on_execute = some f → f w.finding_id w.resource_id none = Except.error e →
      (executeRemediation collab now w).status = WorkflowStatus.FAILED ∧
      (executeRemediation collab now w).error = some e) ∧
    (∀ (collab : Collaborators) (now : String) (w : Workflow)
        (f : String → String → Option ℤ → Except String String) (r : String)
        (hcq : String → String → Except String HealthResult) (e : String),
      collab.on_execute = some f → f w.finding_id w.resource_id none = Except.ok r →
      collab.on_health_check = some hcq →
      hcq w.resource_type w.resource_id = Except.error e →
      (executeRemediation collab now w).status = WorkflowStatus.FAILED ∧
      (executeRemediation collab now w).error = some e) ∧
    (∀ (collab : Collaborators) (now : String) (w : Workflow)
        (canary : CanaryDeployment) (idx : ℕ)
        (hcf : String → String → Except String HealthResult) (e : String),
      w.canary = some canary → findStageIdx canary.stages = some idx →
      collab.on_health_check = some hcf →
      hcf w.resource_type w.resource_id = Except.error e →
      advanceCanary collab now w = Except.error (OrchError.raised e)) ∧
    (∀ (collab : Collaborators) (now : String) (w : Workflow)
        (canary : CanaryDeployment)
        (f : String → String → Option ℤ → Except String String) (e : String),
      w.canary = some canary → collab.on_execute = some f →
      f w.finding_id w.resource_id (some canary.canary_percentage) = Except.error e →
      startCanary collab now w = Except.error (OrchError.raised e)) ∧
    (∀ (collab : Collaborators) (now reason : String) (w : Workflow)
        (f : String → String → Except String String) (e : String),
      collab.on_rollback = some f → f w.finding_id w.resource_id = Except.error e →
      (rollback collab now reason w).status = WorkflowStatus.ROLLED_BACK ∧
      (rollback collab now reason w).error = some reason) := by
  refine ⟨?_, ?_, ?_, ?_, ?_⟩
  · intro collab now w f e hf he
    simp [executeRemediation, hf, he]
  · intro collab now w f r hcq e hex hok hhc hres
    simp [executeRemediation, executeHealthPhase, hex, hok, hhc, hres]
  · intro collab now w canary idx hcf e hcan hidx hhc he
    simp [advanceCanary, hcan, hidx, hhc, he]
  · intro collab now w canary f e hcan hex he
    simp [startCanary, hcan, hex, he]
  · intro collab now reason w f e hrb he
    simp [rollback, rollbackInternal, hrb, he]

/-- Witness for the amended C7: concrete raising execute and health-check
collaborators yield FAILED with `error` set through the execution sub-flow;
a concrete raising health check propagates out of `advance_canary`; a
concrete raising executor propagates out of `start_canary`; and a concrete
raising rollback collaborator still yields ROLLED_BACK with `error` equal to
the rollback reason. -/
theorem c7_amended_witness :
    ((executeRemediation collabBoomExec "t8" wfAwait).status = WorkflowStatus.FAILED ∧
      (executeRemediation collabBoomExec "t8" wfAwait).error = some "exec boom") ∧
    ((executeRemediation collabBoomHC "t8" wfAwait).status = WorkflowStatus.FAILED ∧
      (executeRemediation collabBoomHC "t8" wfAwait).error = some "health check crashed") ∧
    advanceCanary collabBoomHC "t8" wfMon =
      Except.error (OrchError.raised "health check crashed") ∧
    startCanary collabBoomExec "t8" wfMon =
      Except.error (OrchError.raised "exec boom") ∧
    ((rollback collabBoomRB "t9" "Manual rollback" wfDone).status =
        WorkflowStatus.ROLLED_BACK ∧
      (rollback collabBoomRB "t9" "Manual rollback" wfDone).error =
        some "Manual rollback") :=
  ⟨c7_amended.1 collabBoomExec "t8" wfAwait boomExec "exec boom" rfl rfl,
   c7_amended.2.1 collabBoomHC "t8" wfAwait okExec "done" boomHC
     "health check crashed" rfl rfl rfl rfl,
   c7_amended.2.2.1 collabBoomHC "t8" wfMon monCanary 0 boomHC
     "health check crashed" rfl rfl rfl rfl,
   c7_amended.2.2.2.1 collabBoomExec "t8" wfMon monCanary boomExec "exec boom"
     rfl rfl rfl,
   c7_amended.2.2.2.2 collabBoomRB "t9" "Manual rollback" wfDone boomRB
     "rollback crashed" rfl rfl⟩

/-- Claim C8: rollback is idempotent — on a workflow that is already
ROLLED_BACK, `rollback` does not raise (it is total), leaves the workflow in
the same terminal ROLLED_BACK state, and calling it a second time with the
same reason produces exactly the same workflow state (the collaborator is
re-invoked with identical arguments, so with consistent results). -/
theorem c8_rollback_idempotent (collab : Collaborators) (now reason : String)
    (w : Workflow) (_h : w.status = WorkflowStatus.ROLLED_BACK) :
    (rollback collab now reason w).status = WorkflowStatus.ROLLED_BACK ∧
    rollback collab now reason (rollback collab now reason w) =
      rollback collab now reason w := by
  unfold rollback rollbackInternal
  cases hrb : collab.on_rollback with
  | none => exact ⟨rfl, rfl⟩
  | some f => cases hres : f w.finding_id w.resource_id <;> simp [hres]

/-- Witness for C8 at a concrete already-rolled-back workflow. -/
theorem c8_rollback_idempotent_witness :
    wfRolledBack.status = WorkflowStatus.ROLLED_BACK ∧
    ((rollback collabOK "t9" "Manual rollback" wfRolledBack).status =
        WorkflowStatus.ROLLED_BACK ∧
      rollback collabOK "t9" "Manual rollback"
          (rollback collabOK "t9" "Manual rollback" wfRolledBack) =
        rollback collabOK "t9" "Manual rollback" wfRolledBack) :=
  ⟨rfl, c8_rollback_idempotent collabOK "t9" "Manual rollback" wfRolledBack rfl⟩

theorem rollbackInternal_approval (collab : Collaborators) (now reason : String)
    (w : Workflow) : (rollbackInternal collab now reason w).approval = w.approval := by
  unfold rollbackInternal
  cases collab.on_rollback with
  | none => rfl
  | some f => cases hres : f w.finding_id w.resource_id <;> simp [hres]

theorem executeHealthPhase_approval (collab : Collaborators) (now : String)
    (w : Workflow) : (executeHealthPhase collab now w).approval = w.approval := by
  unfold executeHealthPhase
  cases collab.on_health_check with
  | none => rfl
  | some hc =>
    dsimp only
    cases hres : hc w.resource_type w.resource_id with
    | error e => rfl
    | ok h =>
      dsimp only
      by_cases hsr : h.should_rollback = true
      · rw [if_pos hsr]
        exact (rollbackInternal_approval collab now _ _).trans rfl
      · rw [if_neg hsr]

/-- The execution sub-flow never touches the approval record. -/
theorem executeRemediation_approval (collab : Collaborators) (now : String)
    (w : Workflow) : (executeRemediation collab now w).approval = w.approval := by
  unfold executeRemediation
  cases collab.on_execute with
  | none => exact executeHealthPhase_approval collab now _
  | some f =>
    dsimp only
    cases hres : f w.finding_id w.resource_id none with
    | error e => rfl
    | ok r => exact (executeHealthPhase_approval collab now _).trans rfl

/-- Claim C9: `approve` on a workflow whose status is not AWAITING_APPROVAL
fails with the wrong-state (conflict) error — and, being a pure failure, has
no execution side effects; on an AWAITING_APPROVAL workflow it marks the
approval APPROVED (with reviewer, time and comment), sets the workflow
status APPROVED, and synchronously runs the execution sub-flow on that
approved workflow; in particular the resulting workflow still carries the
APPROVED approval record. -/
theorem c9_approve (collab : Collaborators) (now approver : String)
    (comment : Option String) (w : Workflow) :
    (w.status ≠ WorkflowStatus.AWAITING_APPROVAL →
      approve collab now approver comment w =
        Except.error (OrchError.notAwaitingApproval w.status)) ∧
    (w.status = WorkflowStatus.AWAITING_APPROVAL →
      approve collab now approver comment w =
        Except.ok (executeRemediation collab now
          { w with
            approval := w.approval.map (fun (a : ApprovalRequest) =>
              { a with status := "APPROVED", reviewed_by := some approver,
                       reviewed_at := some now, review_comment := comment })
            status := WorkflowStatus.APPROVED
            updated_at := now })) ∧
    (∀ a : ApprovalRequest, w.status = WorkflowStatus.AWAITING_APPROVAL →
      w.approval = some a →
      ∃ w' : Workflow, approve collab now approver comment w = Except.ok w' ∧
        w'.approval = some { a with status := "APPROVED", reviewed_by := some approver,
                                    reviewed_at := some now, review_comment := comment }) := by
  refine ⟨fun h => by simp [approve, h], fun h => by simp [approve, h], ?_⟩
  intro a hst happ
  refine ⟨executeRemediation collab now
    { w with
      approval := w.approval.map (fun (b : ApprovalRequest) =>
        { b with status := "APPROVED", reviewed_by := some approver,
                 reviewed_at := some now, review_comment := comment })
      status := WorkflowStatus.APPROVED
      updated_at := now }, by simp [approve, hst], ?_⟩
  rw [executeRemediation_approval]
  simp [happ]

/-- Witness for C9: a concrete terminal workflow is refused with the
conflict error, and a concrete awaiting workflow is approved and executed
with its approval marked APPROVED. -/
theorem c9_approve_witness :
    (wfDone.status ≠ WorkflowStatus.AWAITING_APPROVAL ∧
      approve collabOK "t8" "admin@example.com" none wfDone =
        Except.error (OrchError.notAwaitingApproval wfDone.status)) ∧
    (wfAwait.status = WorkflowStatus.AWAITING_APPROVAL ∧
      wfAwait.approval = some apprPending ∧
      ∃ w' : Workflow, approve collabOK "t8" "admin@example.com" none wfAwait = Except.ok w' ∧
        w'.approval = some { apprPending with
          status := "APPROVED", reviewed_by := some "admin@example.com",
          reviewed_at := some "t8", review_comment := none }) :=
  ⟨⟨fun h => WorkflowStatus.noConfusion h,
    (c9_approve collabOK "t8" "admin@example.com" none wfDone).1
      (fun h => WorkflowStatus.noConfusion h)⟩,
   ⟨rfl, rfl,
    (c9_approve collabOK "t8" "admin@example.com" none wfAwait).2.2 apprPending rfl rfl⟩⟩

theorem updateStage_get?_ne (f : CanaryStage → CanaryStage) :
    ∀ (i j : ℕ) (l : List CanaryStage), i ≠ j →
      (updateStage i f l).get? j = l.get? j := by
  intro i j l
  induction l generalizing i j with
  | nil => intro hne; cases i <;> rfl
  | cons s rest ih =>
    intro hne
    cases i with
    | zero =>
      cases j with
      | zero => exact absurd rfl hne
      | succ j1 => rfl
    | succ i1 =>
      cases j with
      | zero => rfl
      | succ j1 =>
        simpa [updateStage] using ih i1 j1 (by omega)

/-- Claim C10: in `advance_canary`, when the health check reports
`should_rollback` but the incremented `health_checks_failed` count is still
below the threshold of 2, the method nevertheless completes the current
stage — it marks it COMPLETED, sets `current_percentage` to that stage's
percentage, starts the next stage (IN_PROGRESS, `canary_percentage` set),
and leaves the workflow CANARY_MONITORING; a single failed health check does
not pause, repeat, or roll back the current canary stage. -/
theorem c10_single_health_fail_advances (collab : Collaborators) (now : String)
    (w : Workflow) (canary : CanaryDeployment) (idx : ℕ)
    (hcf : String → String → Except String HealthResult) (h : HealthResult)
    (stage nxt : CanaryStage)
    (hcan : w.canary = some canary)
    (hidx : findStageIdx canary.stages = some idx)
    (hhc : collab.on_health_check = some hcf)
    (hres : hcf w.resource_type w.resource_id = Except.ok h)
    (hsr : h.should_rollback = true)
    (hbelow : canary.health_checks_failed + 1 < 2)
    (hstage : canary.stages.get? idx = some stage)
    (hlt : stage.percentage < 100)
    (hnxt : canary.stages.get? (idx + 1) = some nxt) :
    advanceCanary collab now w = Except.ok { w with
      status := WorkflowStatus.CANARY_MONITORING
      updated_at := now
      canary := some { canary with
        health_checks_failed := canary.health_checks_failed + 1
        stages := updateStage (idx + 1) (fun st => { st with status := "IN_PROGRESS" })
          (updateStage idx (fun st => { st with status := "COMPLETED" }) canary.stages)
        current_percentage := stage.percentage
        last_stage_at := some now
        canary_percentage := nxt.percentage } } := by
  have hne : idx ≠ idx + 1 := by omega
  simp only [advanceCanary, hcan, hidx, hhc, hres, hsr, if_true]
  rw [if_neg (show ¬ (2 ≤ canary.health_checks_failed + 1) by omega)]
  dsimp only
  rw [hstage]
  dsimp only
  rw [if_neg (show ¬ ((100 : ℤ) ≤ stage.percentage) by omega)]
  rw [updateStage_get?_ne _ _ _ _ hne, hnxt]

/-- Witness for C10: a concrete mid-canary workflow with zero prior failed
checks and a health check requesting rollback — the stage still advances. -/
theorem c10_single_health_fail_advances_witness :
    wfMon.canary = some monCanary ∧
    findStageIdx monCanary.stages = some 0 ∧
    monCanary.health_checks_failed + 1 < 2 ∧
    advanceCanary collabFailHC "t2" wfMon = Except.ok { wfMon with
      status := WorkflowStatus.CANARY_MONITORING
      updated_at := "t2"
      canary := some { monCanary with
        health_checks_failed := monCanary.health_checks_failed + 1
        stages := updateStage 1 (fun st => { st with status := "IN_PROGRESS" })
          (updateStage 0 (fun st => { st with status := "COMPLETED" }) monCanary.stages)
        current_percentage := (10 : ℤ)
        last_stage_at := some "t2"
        canary_percentage := (25 : ℤ) } } :=
  ⟨rfl, rfl, by norm_num [monCanary],
   c10_single_health_fail_advances collabFailHC "t2" wfMon monCanary 0 failHC
     { should_rollback := true, rollback_reason := some "error rate spike" }
     { percentage := 10, status := "IN_PROGRESS" }
     { percentage := 25, status := "PENDING" }
     rfl rfl rfl rfl rfl (by norm_num [monCanary]) rfl (by norm_num) rfl⟩

end SafeRemediate
